import Mathlib

/-!
# SwiftChat server — shallow embedding

A shallow embedding of the SwiftChat messaging server core:

* `MemStorage` and its operations embed `src/server/storage.ts`
  (the `MemStorage` class: JS `Map`s are modelled as insertion-ordered
  association lists `List (Nat × _)`, `Map.set` as replace-or-append,
  and `Date` timestamps as a `Nat` clock carried in the state).
* The WebSocket frame handlers embed the router in
  `src/server/routes.ts` (`routesHandleFrame`, `routesClose`,
  `apiGetMessages`) and the variant router in `src/unnamed/part_000`
  (`part0HandleFrame`, `part0Connect`), which differ in the direct
  message, `delivered`, and `group_message` cases.

Outbound `ws.send` calls are collected as a list of
`(target user, frame)` pairs.
-/

namespace SwiftChat

/-- JS truthiness of an optional number field: `undefined` and `0` are falsy. -/
def truthyNat : Option Nat → Bool
  | none => false
  | some n => n != 0

/-- JS truthiness of an optional string field: `undefined` and `""` are falsy. -/
def truthyStr : Option String → Bool
  | none => false
  | some s => s != ""

/-- `Map.set k v`: replace the entry with key `k` in place, else append. -/
def alSet (k : Nat) (v : α) : List (Nat × α) → List (Nat × α)
  | [] => [(k, v)]
  | (k', v') :: rest => if k' = k then (k, v) :: rest else (k', v') :: alSet k v rest

/-- `Map.delete k`: remove the entry with key `k`. -/
def alErase (k : Nat) (l : List (Nat × α)) : List (Nat × α) :=
  l.filter (fun p => p.1 != k)

/-- `Message` record from `@shared/schema` (direct message row). -/
structure Message where
  id : Nat
  senderId : Nat
  receiverId : Nat
  content : String
  sent : Nat
  delivered : Bool
  read : Bool
deriving Repr, DecidableEq

/-- `User` record (password/username collapsed to `username`). -/
structure User where
  id : Nat
  username : String
  online : Bool
deriving Repr, DecidableEq

/-- `Group` record. -/
structure Group where
  id : Nat
  name : String
  address : String
  adminId : Nat
  createdAt : Nat
deriving Repr, DecidableEq

/-- `GroupMember` record (a durable membership row). -/
structure GroupMember where
  id : Nat
  groupId : Nat
  userId : Nat
  joinedAt : Nat
deriving Repr, DecidableEq

/-- `GroupMessage` record. -/
structure GroupMessage where
  id : Nat
  groupId : Nat
  senderId : Nat
  content : String
  sent : Nat
deriving Repr, DecidableEq

/-- The `MemStorage` class state (`src/server/storage.ts`).  `now` models the
wall clock used by `new Date()`. -/
structure MemStorage where
  users : List (Nat × User)
  messages : List (Nat × Message)
  groups : List (Nat × Group)
  groupMembers : List (Nat × GroupMember)
  groupMessages : List (Nat × GroupMessage)
  currentMessageId : Nat
  currentGroupMemberId : Nat
  currentGroupMessageId : Nat
  now : Nat
deriving Repr, DecidableEq

/-- `MemStorage.setUserOnline`. -/
def setUserOnline (st : MemStorage) (id : Nat) (online : Bool) : MemStorage :=
  match st.users.lookup id with
  | some u => { st with users := alSet id { u with online := online } st.users }
  | none => st

/-- `MemStorage.createMessage`: fresh id, `sent = now`, flags start `false`. -/
def createMessage (st : MemStorage) (senderId receiverId : Nat) (content : String) :
    MemStorage × Message :=
  let id := st.currentMessageId
  let m : Message := ⟨id, senderId, receiverId, content, st.now, false, false⟩
  ({ st with messages := alSet id m st.messages, currentMessageId := id + 1 }, m)

/-- Comparator used by `getMessages` / `getGroupMessages`: nondecreasing `sent`. -/
def sentLE (a b : Message) : Prop := a.sent ≤ b.sent

instance : DecidableRel sentLE := fun a b => Nat.decLe a.sent b.sent

instance : IsTotal Message sentLE := ⟨fun a b => Nat.le_total a.sent b.sent⟩

instance : IsTrans Message sentLE := ⟨fun _ _ _ => Nat.le_trans⟩

/-- `MemStorage.getMessages`: filter both directions, sort by `sent`. -/
def getMessages (st : MemStorage) (user1Id user2Id : Nat) : List Message :=
  ((st.messages.map Prod.snd).filter (fun m =>
      (m.senderId == user1Id && m.receiverId == user2Id) ||
      (m.senderId == user2Id && m.receiverId == user1Id))).insertionSort sentLE

/-- `MemStorage.markMessagesAsDelivered`: flip `delivered` on every
not-yet-delivered message addressed to `receiverId`. -/
def markMessagesAsDelivered (st : MemStorage) (receiverId : Nat) : MemStorage :=
  { st with messages := st.messages.map (fun p =>
      if p.2.receiverId == receiverId && !p.2.delivered
      then (p.1, { p.2 with delivered := true }) else p) }

/-- `MemStorage.markMessagesAsRead`: flip `read` on every unread message from
`senderId` to `receiverId`. -/
def markMessagesAsRead (st : MemStorage) (senderId receiverId : Nat) : MemStorage :=
  { st with messages := st.messages.map (fun p =>
      if p.2.senderId == senderId && p.2.receiverId == receiverId && !p.2.read
      then (p.1, { p.2 with read := true }) else p) }

/-- `MemStorage.getGroupByAddress`. -/
def getGroupByAddress (st : MemStorage) (address : String) : Option Group :=
  (st.groups.map Prod.snd).find? (fun g => g.address == address)

/-- `MemStorage.addGroupMember`: unconditionally insert a fresh membership row. -/
def addGroupMember (st : MemStorage) (groupId userId : Nat) : MemStorage :=
  let id := st.currentGroupMemberId
  { st with
    groupMembers := alSet id ⟨id, groupId, userId, st.now⟩ st.groupMembers,
    currentGroupMemberId := id + 1 }

/-- `MemStorage.getGroupMembers`. -/
def getGroupMembers (st : MemStorage) (groupId : Nat) : List GroupMember :=
  (st.groupMembers.map Prod.snd).filter (fun m => m.groupId == groupId)

/-- `MemStorage.createGroupMessage`: fresh id, `sent = now` (the caller-supplied
`id`/`sent` are overwritten by storage). -/
def createGroupMessage (st : MemStorage) (groupId senderId : Nat) (content : String) :
    MemStorage × GroupMessage :=
  let id := st.currentGroupMessageId
  let gm : GroupMessage := ⟨id, groupId, senderId, content, st.now⟩
  ({ st with groupMessages := alSet id gm st.groupMessages,
             currentGroupMessageId := id + 1 }, gm)

/-- Comparator for group messages: nondecreasing `sent`. -/
def gmSentLE (a b : GroupMessage) : Prop := a.sent ≤ b.sent

instance : DecidableRel gmSentLE := fun a b => Nat.decLe a.sent b.sent

/-- `MemStorage.getGroupMessages`. -/
def getGroupMessages (st : MemStorage) (groupId : Nat) : List GroupMessage :=
  ((st.groupMessages.map Prod.snd).filter (fun m => m.groupId == groupId)).insertionSort gmSentLE

/-- A live WebSocket connection handle.  `readyState = 1` is `WebSocket.OPEN`. -/
structure Conn where
  handle : Nat
  readyState : Nat
deriving Repr, DecidableEq

/-- `WebSocket.OPEN`. -/
def wsOPEN : Nat := 1

/-- Inbound `WSMessage` frame (all optional fields of the TS type). -/
structure WSMessage where
  type : String
  content : Option String := none
  receiverId : Option Nat := none
  messageId : Option Nat := none
  senderId : Option Nat := none
  groupId : Option Nat := none
  groupAddress : Option String := none
deriving Repr, DecidableEq

/-- Outbound frames written with `ws.send` / `client.send`.  The
`group_message` frame optionally carries a `groupId` field (present in
`src/unnamed/part_000`, absent in `src/server/routes.ts`). -/
inductive OutFrame where
  | message (m : Message)
  | delivered (messageId : Nat)
  | read (readerId : Nat)
  | status (userId : Nat) (online : Bool)
  | groupMessage (m : GroupMessage) (groupId : Option Nat)
  | groupJoined (g : Group)
  | groupMessages (groupId : Nat) (msgs : List GroupMessage)
  | error (msg : String)
deriving Repr, DecidableEq

/-- The router's in-process state: durable store plus the two runtime tables
`clients` (Connection Registry) and `groupSubscriptions` (JS `Set`s modelled
as duplicate-free lists in insertion order). -/
structure ServerState where
  store : MemStorage
  clients : List (Nat × Conn)
  groupSubscriptions : List (Nat × List Nat)
deriving Repr, DecidableEq

/-- Frames produced while handling one event: `(target userId, frame)`. -/
abbrev Sends := List (Nat × OutFrame)

/-- Does `uid` have a registered connection in the `OPEN` state? -/
def openClient (clients : List (Nat × Conn)) (uid : Nat) : Bool :=
  match clients.lookup uid with
  | some c => c.readyState == wsOPEN
  | none => false

/-- `broadcastUserStatus`: send a status frame to every open connection. -/
def broadcastStatus (clients : List (Nat × Conn)) (uid : Nat) (online : Bool) : Sends :=
  clients.filterMap (fun p =>
    if p.2.readyState == wsOPEN then some (p.1, OutFrame.status uid online) else none)

/-- `case "message"` of the `src/server/routes.ts` router (lines 44–63):
persist, push to the receiver when open, echo to the sender.  This variant
performs no delivered bookkeeping. -/
def routesHandleMessage (s : ServerState) (userId : Nat) (msg : WSMessage) :
    ServerState × Sends :=
  if truthyNat msg.receiverId && truthyStr msg.content then
    let rid := msg.receiverId.getD 0
    let (store1, m) := createMessage s.store userId rid (msg.content.getD "")
    let toReceiver : Sends :=
      if openClient s.clients rid then [(rid, OutFrame.message m)] else []
    ({ s with store := store1 }, toReceiver ++ [(userId, OutFrame.message m)])
  else (s, [])

/-- `case "group_message"` of `src/server/routes.ts` (lines 65–93): durable
membership gate, persist, fan out to the *subscribed* members with an open
connection. -/
def routesHandleGroupMessage (s : ServerState) (userId : Nat) (msg : WSMessage) :
    ServerState × Sends :=
  if truthyNat msg.groupId && truthyStr msg.content then
    let gid := msg.groupId.getD 0
    let members := getGroupMembers s.store gid
    if !(members.any (fun m => m.userId == userId)) then (s, [])
    else
      let (store1, gm) := createGroupMessage s.store gid userId (msg.content.getD "")
      let subs := (s.groupSubscriptions.lookup gid).getD []
      let outs : Sends := subs.filterMap (fun uid =>
        if openClient s.clients uid then some (uid, OutFrame.groupMessage gm none) else none)
      ({ s with store := store1 }, outs)
  else (s, [])

/-- `case "join_group"` of `src/server/routes.ts` (lines 95–141), identical in
`src/unnamed/part_000` (lines 170–216): resolve by address, capacity check,
idempotent durable add, subscribe, reply `group_joined` + history. -/
def routesHandleJoinGroup (s : ServerState) (userId : Nat) (msg : WSMessage) :
    ServerState × Sends :=
  if truthyStr msg.groupAddress then
    match getGroupByAddress s.store (msg.groupAddress.getD "") with
    | none => (s, [(userId, OutFrame.error "Group not found")])
    | some group =>
      let members := getGroupMembers s.store group.id
      if members.length ≥ 10 then (s, [(userId, OutFrame.error "Group is full")])
      else
        let store1 :=
          if members.any (fun m => m.userId == userId) then s.store
          else addGroupMember s.store group.id userId
        let subs := (s.groupSubscriptions.lookup group.id).getD []
        let subs' := if subs.contains userId then subs else subs ++ [userId]
        let msgs := getGroupMessages store1 group.id
        ({ s with store := store1,
                  groupSubscriptions := alSet group.id subs' s.groupSubscriptions },
         [(userId, OutFrame.groupJoined group),
          (userId, OutFrame.groupMessages group.id msgs)])
  else (s, [])

/-- `case "delivered"` of `src/server/routes.ts` (lines 143–154): bulk-mark the
acknowledging user's inbound messages delivered, forward one ack. -/
def routesHandleDelivered (s : ServerState) (userId : Nat) (msg : WSMessage) :
    ServerState × Sends :=
  if truthyNat msg.messageId && truthyNat msg.senderId then
    let sid := msg.senderId.getD 0
    let store1 := markMessagesAsDelivered s.store userId
    let outs : Sends :=
      if openClient s.clients sid then [(sid, OutFrame.delivered (msg.messageId.getD 0))]
      else []
    ({ s with store := store1 }, outs)
  else (s, [])

/-- The `switch (msg.type)` dispatch of the `src/server/routes.ts` message
handler (a `typing`/`read`/unknown frame falls through with no effect). -/
def routesHandleFrame (s : ServerState) (userId : Nat) (msg : WSMessage) :
    ServerState × Sends :=
  if msg.type = "message" then routesHandleMessage s userId msg
  else if msg.type = "group_message" then routesHandleGroupMessage s userId msg
  else if msg.type = "join_group" then routesHandleJoinGroup s userId msg
  else if msg.type = "delivered" then routesHandleDelivered s userId msg
  else (s, [])

/-- The `ws.on("close")` handler of `src/server/routes.ts` (lines 161–174):
drop the registry entry for `userId` unconditionally, flip presence, and
scrub `userId` from every subscription set, dropping emptied sets. -/
def routesClose (s : ServerState) (userId : Nat) : ServerState × Sends :=
  let clients1 := alErase userId s.clients
  let store1 := setUserOnline s.store userId false
  let outs := broadcastStatus clients1 userId false
  let subs1 := (s.groupSubscriptions.map (fun p => (p.1, p.2.erase userId))).filter
    (fun p => !p.2.isEmpty)
  ({ store := store1, clients := clients1, groupSubscriptions := subs1 }, outs)

/-- `GET /api/messages/:userId` (routes.ts lines 249–266): fetch the ordered
history, bulk-mark the other direction read, push a live `read` receipt.
Returns the new state, the pushed frames and the HTTP response body. -/
def apiGetMessages (s : ServerState) (callerId otherUserId : Nat) :
    ServerState × Sends × List Message :=
  let msgs := getMessages s.store callerId otherUserId
  let store1 := markMessagesAsRead s.store otherUserId callerId
  let outs : Sends :=
    if openClient s.clients otherUserId then [(otherUserId, OutFrame.read callerId)] else []
  ({ s with store := store1 }, outs, msgs)

/-- `case "message"` of `src/unnamed/part_000` (lines 84–113): persist; when
the receiver is open, push to the receiver, flip `delivered` (persisting via
`markMessagesAsDelivered`) and ack the sender; always echo to the sender.
The receiver's frame is serialised before the flip, the echo after it. -/
def part0HandleMessage (s : ServerState) (userId : Nat) (msg : WSMessage) :
    ServerState × Sends :=
  if !truthyNat msg.receiverId || !truthyStr msg.content then (s, [])
  else
    let rid := msg.receiverId.getD 0
    let (store1, m) := createMessage s.store userId rid (msg.content.getD "")
    if openClient s.clients rid then
      ({ s with store := markMessagesAsDelivered store1 rid },
       [(rid, OutFrame.message m),
        (userId, OutFrame.delivered m.id),
        (userId, OutFrame.message { m with delivered := true })])
    else
      ({ s with store := store1 }, [(userId, OutFrame.message m)])

/-- `case "delivered"` of `src/unnamed/part_000` (lines 115–125): forward the
ack only, no storage write. -/
def part0HandleDelivered (s : ServerState) (userId : Nat) (msg : WSMessage) :
    ServerState × Sends :=
  if truthyNat msg.messageId && truthyNat msg.senderId then
    let sid := msg.senderId.getD 0
    if openClient s.clients sid then
      (s, [(sid, OutFrame.delivered (msg.messageId.getD 0))])
    else (s, [])
  else (s, [])

/-- `case "read"` of `src/unnamed/part_000` (lines 127–138). -/
def part0HandleRead (s : ServerState) (userId : Nat) (msg : WSMessage) :
    ServerState × Sends :=
  if truthyNat msg.senderId then
    let sid := msg.senderId.getD 0
    let store1 := markMessagesAsRead s.store sid userId
    let outs : Sends :=
      if openClient s.clients sid then [(sid, OutFrame.read userId)] else []
    ({ s with store := store1 }, outs)
  else (s, [])

/-- `case "group_message"` of `src/unnamed/part_000` (lines 140–167): the fan
out goes to the durable `members` (not the subscription table) with an open
connection, and the frame carries a `groupId` field. -/
def part0HandleGroupMessage (s : ServerState) (userId : Nat) (msg : WSMessage) :
    ServerState × Sends :=
  if truthyNat msg.groupId && truthyStr msg.content then
    let gid := msg.groupId.getD 0
    let members := getGroupMembers s.store gid
    if !(members.any (fun m => m.userId == userId)) then (s, [])
    else
      let (store1, gm) := createGroupMessage s.store gid userId (msg.content.getD "")
      let outs : Sends := members.filterMap (fun mem =>
        if openClient s.clients mem.userId
        then some (mem.userId, OutFrame.groupMessage gm (some gid)) else none)
      ({ s with store := store1 }, outs)
  else (s, [])

/-- The `switch (msg.type)` dispatch of the `src/unnamed/part_000` handler. -/
def part0HandleFrame (s : ServerState) (userId : Nat) (msg : WSMessage) :
    ServerState × Sends :=
  if msg.type = "message" then part0HandleMessage s userId msg
  else if msg.type = "delivered" then part0HandleDelivered s userId msg
  else if msg.type = "read" then part0HandleRead s userId msg
  else if msg.type = "group_message" then part0HandleGroupMessage s userId msg
  else if msg.type = "join_group" then routesHandleJoinGroup s userId msg
  else (s, [])

/-- The `wss.on("connection")` handler of `src/unnamed/part_000`
(lines 67–76): register, flip presence, broadcast, and bulk-mark every pending
message to this user as delivered ("Send any pending messages"). -/
def part0Connect (s : ServerState) (userId : Nat) (c : Conn) : ServerState × Sends :=
  let clients1 := alSet userId c s.clients
  let store1 := setUserOnline s.store userId true
  let outs := broadcastStatus clients1 userId true
  let store2 := markMessagesAsDelivered store1 userId
  ({ s with store := store2, clients := clients1 }, outs)

/-- The events that mutate the server state, across both router variants:
an inbound frame on either router, a connection, a close, or a history
fetch over HTTP. -/
inductive Op where
  | routesFrame (uid : Nat) (msg : WSMessage)
  | part0Frame (uid : Nat) (msg : WSMessage)
  | connect (uid : Nat) (c : Conn)
  | close (uid : Nat)
  | httpGetMessages (caller other : Nat)
deriving Repr, DecidableEq

/-- State transition of one event (outbound frames discarded). -/
def applyOp (s : ServerState) : Op → ServerState
  | Op.routesFrame uid msg => (routesHandleFrame s uid msg).1
  | Op.part0Frame uid msg => (part0HandleFrame s uid msg).1
  | Op.connect uid c => (part0Connect s uid c).1
  | Op.close uid => (routesClose s uid).1
  | Op.httpGetMessages a b => (apiGetMessages s a b).1

/-- Run a sequence of events. -/
def applyOps (s : ServerState) (ops : List Op) : ServerState := ops.foldl applyOp s

/-- Key freshness for the messages table: every stored id is below the
counter, as maintained by `createMessage`. -/
def MsgWF (st : MemStorage) : Prop := ∀ p ∈ st.messages, p.1 < st.currentMessageId

/-- One storage step is flag-monotone on the messages table: every stored
message survives with the same id and `delivered`/`read` never reset. -/
def msgStep (st stNew : MemStorage) : Prop :=
  ∀ id m, st.messages.lookup id = some m →
    ∃ mNew, stNew.messages.lookup id = some mNew ∧
      (m.delivered = true → mNew.delivered = true) ∧
      (m.read = true → mNew.read = true)

/-! ## Concrete states used by witnesses and counterexamples -/

/-- An empty store: fresh counters, clock at 100. -/
def exStore0 : MemStorage := ⟨[], [], [], [], [], 1, 1, 1, 100⟩

/-- An empty server state. -/
def exS0 : ServerState := ⟨exStore0, [], []⟩

/-- A `message` frame with both fields present but falsy content. -/
def wMsg10 : WSMessage := { type := "message", receiverId := some 2, content := some "" }

/-- A store holding one group (id 1, address `"g"`) with 10 durable members,
users 1 through 10. -/
def exStoreFull : MemStorage :=
  ⟨[], [], [(1, ⟨1, "grp", "g", 1, 0⟩)],
   (List.range 10).map (fun i => (i + 1, ⟨i + 1, 1, i + 1, 0⟩)),
   [], 1, 11, 1, 100⟩

/-- Server state over `exStoreFull` with user 1 connected and no live
subscriptions (user 1 has reconnected since joining). -/
def exSFull : ServerState := ⟨exStoreFull, [(1, ⟨1, wsOPEN⟩)], []⟩

/-- A `join_group` frame for the address `"g"`. -/
def wJoin : WSMessage := { type := "join_group", groupAddress := some "g" }

/-- A store holding one group (id 1, address `"g"`) with 2 durable members,
users 1 and 2. -/
def exStoreSmall : MemStorage :=
  ⟨[], [], [(1, ⟨1, "grp", "g", 1, 0⟩)],
   [(1, ⟨1, 1, 1, 0⟩), (2, ⟨2, 1, 2, 0⟩)], [], 1, 3, 1, 100⟩

/-- Server state over `exStoreSmall`: user 1 connected, only user 2 in the
group's live subscription set (user 1 reconnected since joining). -/
def exSSmall : ServerState := ⟨exStoreSmall, [(1, ⟨1, wsOPEN⟩)], [(1, [2])]⟩

/-- Server state with users 7 and 8 connected, user 7 subscribed to groups 1
and 2 and user 8 to group 1 (group 2's set will empty when 7 leaves). -/
def exSSubs : ServerState :=
  ⟨exStoreSmall, [(7, ⟨1, wsOPEN⟩), (8, ⟨2, wsOPEN⟩)], [(1, [7, 8]), (2, [7])]⟩

/-- Server state over `exStoreSmall` with users 1 and 2 connected and user 2
subscribed to group 1. -/
def exSGroup : ServerState :=
  ⟨exStoreSmall, [(1, ⟨1, wsOPEN⟩), (2, ⟨2, wsOPEN⟩)], [(1, [2])]⟩

/-- A `group_message` frame for group 1 with content `"hi"`. -/
def wGroupMsg : WSMessage := { type := "group_message", groupId := some 1, content := some "hi" }

/-- Server state over the empty store with users 1 and 2 both connected. -/
def exSLive : ServerState := ⟨exStore0, [(1, ⟨1, wsOPEN⟩), (2, ⟨2, wsOPEN⟩)], []⟩

/-- A well-formed direct `message` frame from the wire: receiver 2, `"hi"`. -/
def wDirect : WSMessage := { type := "message", receiverId := some 2, content := some "hi" }

/-- A store holding one undelivered, unread message id 1 from user 1 to
user 2. -/
def exStoreAck : MemStorage :=
  ⟨[], [(1, ⟨1, 1, 2, "hi", 50, false, false⟩)], [], [], [], 2, 1, 1, 100⟩

/-- Server state over `exStoreAck` with users 1 and 2 connected. -/
def exSAck : ServerState := ⟨exStoreAck, [(1, ⟨1, wsOPEN⟩), (2, ⟨2, wsOPEN⟩)], []⟩

/-- A `delivered` frame acknowledging some message of sender 1. -/
def wAck : WSMessage := { type := "delivered", messageId := some 9, senderId := some 1 }

/-- Server state over `exStoreAck` with nobody connected (receiver 2 is
offline). -/
def exSOffline : ServerState := ⟨exStoreAck, [], []⟩

/-- A store holding one message id 1 from user 1 to user 2 that is already
read but not yet delivered. -/
def exStoreC2 : MemStorage :=
  ⟨[], [(1, ⟨1, 1, 2, "hi", 50, false, true⟩)], [], [], [], 2, 1, 1, 100⟩

/-- Server state over `exStoreC2` with users 1 and 2 connected. -/
def exSC2 : ServerState := ⟨exStoreC2, [(1, ⟨1, wsOPEN⟩), (2, ⟨2, wsOPEN⟩)], []⟩


/-! ## Generic association-list lemmas -/

theorem lookup_cons (i k : Nat) (w : α) (rest : List (Nat × α)) :
    ((i, w) :: rest).lookup k = if k = i then some w else rest.lookup k := by
  by_cases h : k = i
  · simp [List.lookup, h]
  · have hb : (k == i) = false := by simpa using h
    simp [List.lookup, hb, h]

theorem lookup_alSet_self (k : Nat) (v : α) (l : List (Nat × α)) :
    (alSet k v l).lookup k = some v := by
  induction l with
  | nil => simp [alSet, lookup_cons]
  | cons p rest ih =>
    obtain ⟨j, w⟩ := p
    by_cases h : j = k
    · simp [alSet, h, lookup_cons]
    · simp [alSet, h, lookup_cons, Ne.symm h, ih]

theorem lookup_alSet_ne (k j : Nat) (v : α) (l : List (Nat × α)) (h : j ≠ k) :
    (alSet k v l).lookup j = l.lookup j := by
  induction l with
  | nil => simp [alSet, lookup_cons, h]
  | cons p rest ih =>
    obtain ⟨i, w⟩ := p
    by_cases hk : i = k
    · subst hk
      simp [alSet, lookup_cons, h]
    · simp [alSet, hk, lookup_cons, ih]

theorem mem_alSet (k : Nat) (v : α) (l : List (Nat × α)) :
    ∀ p ∈ alSet k v l, p = (k, v) ∨ p ∈ l := by
  induction l with
  | nil =>
    intro p hp
    simpa [alSet] using hp
  | cons q rest ih =>
    obtain ⟨i, w⟩ := q
    intro p hp
    by_cases hk : i = k
    · rw [alSet, if_pos hk] at hp
      rcases List.mem_cons.mp hp with h1 | h1
      · exact Or.inl h1
      · exact Or.inr (List.mem_cons_of_mem _ h1)
    · rw [alSet, if_neg hk] at hp
      rcases List.mem_cons.mp hp with h1 | h1
      · exact Or.inr (List.mem_cons.mpr (Or.inl h1))
      · rcases ih p h1 with h2 | h2
        · exact Or.inl h2
        · exact Or.inr (List.mem_cons_of_mem _ h2)

/-- `lookup` through a key-preserving conditional update, the common shape of
`markMessagesAsDelivered` / `markMessagesAsRead`. -/
theorem lookup_mapUpdate (cond : α → Bool) (f : α → α) (k : Nat) (l : List (Nat × α)) :
    (l.map (fun p => if cond p.2 then (p.1, f p.2) else p)).lookup k
      = (l.lookup k).map (fun m => if cond m then f m else m) := by
  induction l with
  | nil => simp [List.lookup]
  | cons p rest ih =>
    obtain ⟨i, w⟩ := p
    simp only [List.map]
    by_cases hc : cond w
    · rw [if_pos hc]
      by_cases hik : k = i <;> simp [lookup_cons, hik, hc, ih]
    · rw [if_neg hc]
      by_cases hik : k = i <;> simp [lookup_cons, hik, hc, ih]

theorem lookup_markDelivered (st : MemStorage) (r id : Nat) :
    (markMessagesAsDelivered st r).messages.lookup id
      = (st.messages.lookup id).map
          (fun m => if m.receiverId == r && !m.delivered
                    then { m with delivered := true } else m) := by
  simp only [markMessagesAsDelivered]
  exact lookup_mapUpdate (fun m => m.receiverId == r && !m.delivered)
    (fun m => { m with delivered := true }) id st.messages

theorem lookup_markRead (st : MemStorage) (sid rid id : Nat) :
    (markMessagesAsRead st sid rid).messages.lookup id
      = (st.messages.lookup id).map
          (fun m => if m.senderId == sid && m.receiverId == rid && !m.read
                    then { m with read := true } else m) := by
  simp only [markMessagesAsRead]
  exact lookup_mapUpdate (fun m => m.senderId == sid && m.receiverId == rid && !m.read)
    (fun m => { m with read := true }) id st.messages

theorem alSet_append (k : Nat) (v : α) (l : List (Nat × α)) (h : ∀ p ∈ l, p.1 ≠ k) :
    alSet k v l = l ++ [(k, v)] := by
  induction l with
  | nil => rfl
  | cons q rest ih =>
    obtain ⟨i, w⟩ := q
    have hik : i ≠ k := h (i, w) (List.mem_cons_self _ _)
    rw [alSet, if_neg hik]
    simp only [List.cons_append, List.cons.injEq, true_and]
    exact ih (fun p hp => h p (List.mem_cons_of_mem _ hp))

theorem getGroupMembers_addGroupMember (st : MemStorage) (gid₀ u gid : Nat)
    (hfresh : ∀ p ∈ st.groupMembers, p.1 < st.currentGroupMemberId) :
    getGroupMembers (addGroupMember st gid₀ u) gid
      = getGroupMembers st gid ++
        (if gid₀ = gid
         then [⟨st.currentGroupMemberId, gid₀, u, st.now⟩] else []) := by
  simp only [getGroupMembers, addGroupMember]
  rw [alSet_append _ _ _ (fun p hp => Nat.ne_of_lt (hfresh p hp))]
  by_cases h : gid₀ = gid <;> simp [List.filter_append, h]

theorem setUserOnline_groupMembers (st : MemStorage) (id : Nat) (b : Bool) :
    (setUserOnline st id b).groupMembers = st.groupMembers := by
  unfold setUserOnline
  cases st.users.lookup id <;> rfl

theorem setUserOnline_messages (st : MemStorage) (id : Nat) (b : Bool) :
    (setUserOnline st id b).messages = st.messages := by
  unfold setUserOnline
  cases st.users.lookup id <;> rfl

theorem setUserOnline_currentMessageId (st : MemStorage) (id : Nat) (b : Bool) :
    (setUserOnline st id b).currentMessageId = st.currentMessageId := by
  unfold setUserOnline
  cases st.users.lookup id <;> rfl

/-! ## Claims -/

/-- C9: `getMessages` returns the conversation between the two users sorted in
nondecreasing sent-time order, and is symmetric in its two arguments (the two
orientations even return the same list, hence the same set). -/
theorem c9_getMessages_sorted_and_symmetric (st : MemStorage) (a b : Nat) :
    List.Sorted sentLE (getMessages st a b) ∧ getMessages st a b = getMessages st b a := by
  refine ⟨List.sorted_insertionSort sentLE _, ?_⟩
  unfold getMessages
  congr 1
  apply List.filter_congr
  intro m _
  exact Bool.or_comm _ _

/-- C10: a `message` frame whose `content` field is the empty string or whose
`receiverId` field is `0` is silently ignored by both routers — no
DirectMessage is persisted and no frame is sent to anyone — because the
presence check uses JS truthiness. -/
theorem c10_falsy_message_frame_ignored (s : ServerState) (uid : Nat) (msg : WSMessage)
    (htype : msg.type = "message") (r : Nat) (c : String)
    (hr : msg.receiverId = some r) (hc : msg.content = some c)
    (hfalsy : c = "" ∨ r = 0) :
    routesHandleFrame s uid msg = (s, []) ∧ part0HandleFrame s uid msg = (s, []) := by
  have hg1 : (truthyNat msg.receiverId && truthyStr msg.content) = false := by
    rcases hfalsy with h | h <;> simp [truthyNat, truthyStr, hr, hc, h]
  have hg2 : (!truthyNat msg.receiverId || !truthyStr msg.content) = true := by
    rcases hfalsy with h | h <;> simp [truthyNat, truthyStr, hr, hc, h]
  refine ⟨?_, ?_⟩
  · simp [routesHandleFrame, htype, routesHandleMessage, hg1]
  · simp [part0HandleFrame, htype, part0HandleMessage, hg2]

/-- Witness for C10 at a concrete frame with `receiverId = 2`, `content = ""`. -/
theorem c10_witness :
    (wMsg10.type = "message" ∧ wMsg10.receiverId = some 2 ∧ wMsg10.content = some "" ∧
      ((("" : String) = "") ∨ (2 : Nat) = 0)) ∧
    routesHandleFrame exS0 1 wMsg10 = (exS0, []) ∧
    part0HandleFrame exS0 1 wMsg10 = (exS0, []) :=
  ⟨⟨rfl, rfl, rfl, Or.inl rfl⟩,
    c10_falsy_message_frame_ignored exS0 1 wMsg10 rfl 2 "" rfl rfl (Or.inl rfl)⟩

/-- C7 (code bug): the `ws.on("close")` handler deletes the Connection Registry
entry for `userId` unconditionally (`clients.delete(userId)`), so a late close
event from a superseded connection evicts the newer registered connection:
here user 7's connection handle 1 is replaced by handle 2, yet running the
close handler (as fired by the stale handle-1 socket) removes handle 2's
registry entry. -/
theorem c7_close_evicts_newer_connection :
    ((part0Connect ⟨exStore0, [(7, ⟨1, wsOPEN⟩)], []⟩ 7 ⟨2, wsOPEN⟩).1.clients.lookup 7
        = some ⟨2, wsOPEN⟩) ∧
    ((routesClose (part0Connect ⟨exStore0, [(7, ⟨1, wsOPEN⟩)], []⟩ 7 ⟨2, wsOPEN⟩).1 7).1.clients.lookup 7
        = none) := by
  constructor <;> rfl

/-- C6: a `join_group` frame naming a group that already has 10 or more
durable members yields an `error` frame with message "Group is full" and
leaves the state — in particular the GroupMembership table — unchanged;
moreover processing any `join_group` frame keeps every group's durable
membership count at most 10, so the join path never pushes a group past 10
members. -/
theorem c6_join_full_group_rejected (s : ServerState) (uid : Nat) (msg : WSMessage)
    (htype : msg.type = "join_group") (a : String) (ha : msg.groupAddress = some a)
    (hne : a ≠ "") (g : Group) (hg : getGroupByAddress s.store a = some g)
    (hfull : 10 ≤ (getGroupMembers s.store g.id).length) :
    routesHandleFrame s uid msg = (s, [(uid, OutFrame.error "Group is full")]) ∧
    (∀ (s₂ : ServerState) (uid₂ : Nat) (msg₂ : WSMessage) (gid : Nat),
      msg₂.type = "join_group" →
      (∀ p ∈ s₂.store.groupMembers, p.1 < s₂.store.currentGroupMemberId) →
      (getGroupMembers s₂.store gid).length ≤ 10 →
      (getGroupMembers (routesHandleFrame s₂ uid₂ msg₂).1.store gid).length ≤ 10) := by
  constructor
  · simp [routesHandleFrame, htype, routesHandleJoinGroup, ha, truthyStr, hne, hg, hfull]
  · intro s₂ uid₂ msg₂ gid htype₂ hfresh hlen
    have hdisp : routesHandleFrame s₂ uid₂ msg₂ = routesHandleJoinGroup s₂ uid₂ msg₂ := by
      simp [routesHandleFrame, htype₂]
    rw [hdisp]
    unfold routesHandleJoinGroup
    by_cases hta : truthyStr msg₂.groupAddress = true
    · rw [if_pos hta]
      cases hg₂ : getGroupByAddress s₂.store (msg₂.groupAddress.getD "") with
      | none => simpa using hlen
      | some g₂ =>
        by_cases hfull₂ : (getGroupMembers s₂.store g₂.id).length ≥ 10
        · simpa [hfull₂] using hlen
        · by_cases hmem : ((getGroupMembers s₂.store g₂.id).any fun m => m.userId == uid₂) = true
          · simpa [hfull₂, hmem] using hlen
          · by_cases hgid : g₂.id = gid
            · subst hgid
              simp [hfull₂, hmem,
                    getGroupMembers_addGroupMember s₂.store g₂.id uid₂ g₂.id hfresh]
              omega
            · simpa [hfull₂, hmem, hgid,
                     getGroupMembers_addGroupMember s₂.store g₂.id uid₂ gid hfresh]
                using hlen
    · rw [if_neg hta]
      simpa using hlen

/-- Witness for C6: user 11 tries to join the concrete full group of
`exSFull` and is rejected with "Group is full", the state unchanged. -/
theorem c6_witness :
    (10 ≤ (getGroupMembers exStoreFull 1).length) ∧
    routesHandleFrame exSFull 11 wJoin = (exSFull, [(11, OutFrame.error "Group is full")]) :=
  ⟨by decide,
   (c6_join_full_group_rejected exSFull 11 wJoin rfl "g" rfl (by decide)
      ⟨1, "grp", "g", 1, 0⟩ (by decide) (by decide)).1⟩

/-- C5 (counterexample to the claim as stated): in `exSFull`, user 1 is a
durable member of group 1, yet processing a further `join_group` frame for the
group's address leaves the live subscription set without user 1 — the handler
rejects the frame with "Group is full" before the member check and never
subscribes, so the set does not contain the user exactly once afterwards. -/
theorem c5_counterexample :
    ((getGroupMembers exStoreFull 1).any (fun m => m.userId == 1) = true) ∧
    ((((routesHandleFrame exSFull 1 wJoin).1.groupSubscriptions.lookup 1).getD
        []).count 1 ≠ 1) := by
  constructor <;> decide

/-- C5 (amended): a second `join_group` by an existing durable member is
idempotent provided the group currently has fewer than 10 durable members: no
membership row is added and the live subscription set afterwards contains the
user exactly once.  (When the group already has 10 or more members the handler
instead replies "Group is full" and does not subscribe the user, which is the
case the original claim missed.) -/
theorem c5_rejoin_idempotent (s : ServerState) (uid : Nat) (msg : WSMessage)
    (htype : msg.type = "join_group") (a : String) (ha : msg.groupAddress = some a)
    (hne : a ≠ "") (g : Group) (hg : getGroupByAddress s.store a = some g)
    (hnotfull : (getGroupMembers s.store g.id).length < 10)
    (hmem : ((getGroupMembers s.store g.id).any fun m => m.userId == uid) = true)
    (hnodup : (((s.groupSubscriptions.lookup g.id).getD []) : List Nat).Nodup) :
    (routesHandleFrame s uid msg).1.store.groupMembers = s.store.groupMembers ∧
    (((routesHandleFrame s uid msg).1.groupSubscriptions.lookup g.id).getD
        []).count uid = 1 := by
  have hdisp : routesHandleFrame s uid msg = routesHandleJoinGroup s uid msg := by
    simp [routesHandleFrame, htype]
  have h10 : ¬(getGroupMembers s.store g.id).length ≥ 10 := Nat.not_le.mpr hnotfull
  rw [hdisp]
  unfold routesHandleJoinGroup
  simp only [ha, truthyStr, Option.getD_some, bne_iff_ne, ne_eq, hne, not_false_iff,
             if_true, hg, h10, if_false, hmem]
  refine ⟨trivial, ?_⟩
  rw [lookup_alSet_self, Option.getD_some]
  by_cases hc : ((s.groupSubscriptions.lookup g.id).getD []).contains uid
  · simp only [hc, if_true]
    exact List.count_eq_one_of_mem hnodup
      (by simpa [List.contains, List.elem_iff] using hc)
  · simp only [hc, Bool.false_eq_true, if_false]
    rw [List.count_append]
    have h0 : ((s.groupSubscriptions.lookup g.id).getD []).count uid = 0 :=
      List.count_eq_zero.mpr (by simpa [List.contains, List.elem_iff] using hc)
    simp [h0]

/-- Witness for C5 (amended): user 1 re-joins the two-member group of
`exSSmall`; the membership table is unchanged and the subscription set then
holds user 1 exactly once. -/
theorem c5_witness :
    (((getGroupMembers exStoreSmall 1).any fun m => m.userId == 1) = true ∧
      (getGroupMembers exStoreSmall 1).length < 10) ∧
    (routesHandleFrame exSSmall 1 wJoin).1.store.groupMembers
        = exStoreSmall.groupMembers ∧
    (((routesHandleFrame exSSmall 1 wJoin).1.groupSubscriptions.lookup 1).getD
        []).count 1 = 1 :=
  ⟨⟨by decide, by decide⟩,
   c5_rejoin_idempotent exSSmall 1 wJoin rfl "g" rfl (by decide)
     ⟨1, "grp", "g", 1, 0⟩ (by decide) (by decide) (by decide) (by decide)⟩

/-- C8: after the close handler for a user runs, that userId is absent from
every group's live subscription set; any set the removal left empty is dropped
from the table entirely (only nonempty sets remain, and every nonempty erased
set is retained); and the durable GroupMembership table is unchanged. -/
theorem c8_close_clears_subscriptions (s : ServerState) (uid : Nat)
    (hwf : ∀ p ∈ s.groupSubscriptions, (p.2 : List Nat).Nodup) :
    (∀ p ∈ (routesClose s uid).1.groupSubscriptions, uid ∉ p.2 ∧ p.2 ≠ []) ∧
    (∀ p ∈ s.groupSubscriptions, p.2.erase uid ≠ [] →
        (p.1, p.2.erase uid) ∈ (routesClose s uid).1.groupSubscriptions) ∧
    (routesClose s uid).1.store.groupMembers = s.store.groupMembers := by
  refine ⟨?_, ?_, ?_⟩
  · intro p hp
    simp only [routesClose] at hp
    rcases List.mem_filter.mp hp with ⟨hpmem, hpne⟩
    rcases List.mem_map.mp hpmem with ⟨q, hq, hqe⟩
    subst hqe
    refine ⟨(hwf q hq).not_mem_erase, ?_⟩
    simpa using hpne
  · intro p hp hne
    simp only [routesClose]
    refine List.mem_filter.mpr ⟨List.mem_map.mpr ⟨p, hp, rfl⟩, ?_⟩
    simpa using hne
  · simp [routesClose, setUserOnline_groupMembers]

/-- Witness for C8: user 7 disconnects from `exSSubs`; group 2's emptied set
is dropped, group 1 keeps `[8]`, and the membership table is untouched. -/
theorem c8_witness :
    (∀ p ∈ exSSubs.groupSubscriptions, (p.2 : List Nat).Nodup) ∧
    (∀ p ∈ (routesClose exSSubs 7).1.groupSubscriptions, 7 ∉ p.2 ∧ p.2 ≠ []) ∧
    (∀ p ∈ exSSubs.groupSubscriptions, p.2.erase 7 ≠ [] →
        (p.1, p.2.erase 7) ∈ (routesClose exSSubs 7).1.groupSubscriptions) ∧
    (routesClose exSSubs 7).1.store.groupMembers = exSSubs.store.groupMembers :=
  ⟨by decide, c8_close_clears_subscriptions exSSubs 7 (by decide)⟩

/-- C4: for a `group_message` frame with truthy `groupId` and `content`: when
the sender is not a durable member the frame is dropped silently (state
unchanged, nothing sent); when the sender is a durable member, the
GroupMessage is persisted and the frame is pushed to exactly the currently
subscribed members of the group that have a live open connection (this is the
`src/server/routes.ts` fan-out; the `src/unnamed/part_000` variant fans out to
the durable member list instead). -/
theorem c4_group_message_fanout (s : ServerState) (uid : Nat) (msg : WSMessage)
    (htype : msg.type = "group_message") (gid : Nat) (c : String)
    (hgid : msg.groupId = some gid) (hgid0 : gid ≠ 0)
    (hc : msg.content = some c) (hc0 : c ≠ "") :
    (((getGroupMembers s.store gid).any fun m => m.userId == uid) = false →
      routesHandleFrame s uid msg = (s, [])) ∧
    (((getGroupMembers s.store gid).any fun m => m.userId == uid) = true →
      (routesHandleFrame s uid msg).1.store.groupMessages.lookup
          s.store.currentGroupMessageId
        = some ⟨s.store.currentGroupMessageId, gid, uid, c, s.store.now⟩ ∧
      (∀ u f, (u, f) ∈ (routesHandleFrame s uid msg).2 →
        f = OutFrame.groupMessage
              ⟨s.store.currentGroupMessageId, gid, uid, c, s.store.now⟩ none ∧
        u ∈ (s.groupSubscriptions.lookup gid).getD [] ∧
        openClient s.clients u = true) ∧
      (∀ u, u ∈ (s.groupSubscriptions.lookup gid).getD [] →
        openClient s.clients u = true →
        (u, OutFrame.groupMessage
              ⟨s.store.currentGroupMessageId, gid, uid, c, s.store.now⟩ none)
          ∈ (routesHandleFrame s uid msg).2)) := by
  have hdisp : routesHandleFrame s uid msg = routesHandleGroupMessage s uid msg := by
    simp [routesHandleFrame, htype]
  have hguard : (truthyNat msg.groupId && truthyStr msg.content) = true := by
    simp [truthyNat, truthyStr, hgid, hc, hgid0, hc0]
  rw [hdisp]
  unfold routesHandleGroupMessage
  rw [if_pos hguard]
  simp only [hgid, hc, Option.getD_some]
  constructor
  · intro hnm
    simp [hnm]
  · intro hm
    simp only [hm, Bool.not_true, Bool.false_eq_true, if_false, createGroupMessage]
    refine ⟨?_, ?_, ?_⟩
    · exact lookup_alSet_self _ _ _
    · intro u f hf
      simp only [List.mem_filterMap] at hf
      rcases hf with ⟨u₀, hu₀, heq⟩
      by_cases ho : openClient s.clients u₀ = true
      · rw [if_pos ho] at heq
        rcases Option.some.inj heq with he
        rcases Prod.mk.injEq .. ▸ he with ⟨h1, h2⟩
        subst h1
        exact ⟨h2.symm, hu₀, ho⟩
      · rw [if_neg ho] at heq
        exact absurd heq (by simp)
    · intro u hu ho
      exact List.mem_filterMap.mpr ⟨u, hu, by simp [ho]⟩

/-- Witness for C4: user 1 (a member) sends `"hi"` to group 1 in `exSGroup`;
the message is persisted with id 1 and pushed to subscriber 2. -/
theorem c4_witness :
    (routesHandleFrame exSGroup 1 wGroupMsg).1.store.groupMessages.lookup 1
        = some ⟨1, 1, 1, "hi", 100⟩ ∧
    (2, OutFrame.groupMessage ⟨1, 1, 1, "hi", 100⟩ none)
        ∈ (routesHandleFrame exSGroup 1 wGroupMsg).2 := by
  have h := c4_group_message_fanout exSGroup 1 wGroupMsg rfl 1 "hi" rfl
    (by decide) rfl (by decide)
  exact ⟨(h.2 (by decide)).1, (h.2 (by decide)).2.2 2 (by decide) (by decide)⟩

/-- C1: for a `message` frame with truthy `receiverId` and `content`, handled
by the `src/unnamed/part_000` router while the receiver has a live open
connection: the DirectMessage is created with `sent = now`,
`delivered = false`, `read = false`; a `message` frame is pushed to the
receiver; the stored copy's delivered flag flips to true (persisted via
`markMessagesAsDelivered`); the sender receives exactly one `delivered` ack
for the new message id; and the sender receives the echoed `message` frame
carrying the authoritative id. -/
theorem c1_live_direct_message (s : ServerState) (uid : Nat) (msg : WSMessage)
    (htype : msg.type = "message") (r : Nat) (c : String)
    (hr : msg.receiverId = some r) (hr0 : r ≠ 0)
    (hc : msg.content = some c) (hc0 : c ≠ "")
    (hopen : openClient s.clients r = true) :
    (createMessage s.store uid r c).2
        = ⟨s.store.currentMessageId, uid, r, c, s.store.now, false, false⟩ ∧
    (part0HandleFrame s uid msg).1.store.messages.lookup s.store.currentMessageId
        = some ⟨s.store.currentMessageId, uid, r, c, s.store.now, true, false⟩ ∧
    (r, OutFrame.message ⟨s.store.currentMessageId, uid, r, c, s.store.now, false, false⟩)
        ∈ (part0HandleFrame s uid msg).2 ∧
    (part0HandleFrame s uid msg).2.count
        (uid, OutFrame.delivered s.store.currentMessageId) = 1 ∧
    (uid, OutFrame.message ⟨s.store.currentMessageId, uid, r, c, s.store.now, true, false⟩)
        ∈ (part0HandleFrame s uid msg).2 := by
  have hdisp : part0HandleFrame s uid msg = part0HandleMessage s uid msg := by
    simp [part0HandleFrame, htype]
  have hguard : (!truthyNat msg.receiverId || !truthyStr msg.content) = false := by
    simp [truthyNat, truthyStr, hr, hc, hr0, hc0]
  rw [hdisp]
  unfold part0HandleMessage
  rw [if_neg (by simp [hguard])]
  simp only [hr, hc, Option.getD_some, createMessage]
  rw [if_pos hopen]
  refine ⟨trivial, ?_, ?_, ?_, ?_⟩
  · rw [lookup_markDelivered, lookup_alSet_self]
    simp
  · simp
  · simp [List.count_cons]
  · simp

/-- Witness for C1: user 1 sends `"hi"` to the connected user 2 in `exSLive`;
the stored message (id 1) ends delivered and exactly one ack reaches user 1. -/
theorem c1_witness :
    openClient exSLive.clients 2 = true ∧
    (part0HandleFrame exSLive 1 wDirect).1.store.messages.lookup 1
        = some ⟨1, 1, 2, "hi", 100, true, false⟩ ∧
    (part0HandleFrame exSLive 1 wDirect).2.count (1, OutFrame.delivered 1) = 1 := by
  have h := c1_live_direct_message exSLive 1 wDirect rfl 2 "hi" rfl (by decide)
    rfl (by decide) (by decide)
  exact ⟨by decide, h.2.1, h.2.2.2.1⟩

/-! ## Flag monotonicity machinery (C2/C3) -/

theorem lookup_some_key_mem (l : List (Nat × α)) (k : Nat) (v : α)
    (h : l.lookup k = some v) : (k, v) ∈ l := by
  induction l with
  | nil => simp [List.lookup] at h
  | cons p rest ih =>
    obtain ⟨i, w⟩ := p
    rw [lookup_cons] at h
    by_cases hk : k = i
    · rw [if_pos hk] at h
      subst hk
      obtain rfl := Option.some.inj h
      exact List.mem_cons_self _ _
    · rw [if_neg hk] at h
      exact List.mem_cons_of_mem _ (ih h)

theorem msgStep_refl (st : MemStorage) : msgStep st st :=
  fun _ m h => ⟨m, h, fun x => x, fun x => x⟩

theorem msgStep_of_messages_eq {st stNew : MemStorage}
    (h : stNew.messages = st.messages) : msgStep st stNew := by
  intro i m hm
  exact ⟨m, by rw [h]; exact hm, fun x => x, fun x => x⟩

theorem msgStep_trans {a b c : MemStorage} (h1 : msgStep a b) (h2 : msgStep b c) :
    msgStep a c := by
  intro i m hm
  obtain ⟨m1, hm1, hd1, hr1⟩ := h1 i m hm
  obtain ⟨m2, hm2, hd2, hr2⟩ := h2 i m1 hm1
  exact ⟨m2, hm2, fun h => hd2 (hd1 h), fun h => hr2 (hr1 h)⟩

theorem msgStep_markDelivered (st : MemStorage) (r : Nat) :
    msgStep st (markMessagesAsDelivered st r) := by
  intro i m hm
  rw [lookup_markDelivered, hm, Option.map_some']
  refine ⟨_, rfl, ?_, ?_⟩
  · intro hd
    by_cases hc : (m.receiverId == r && !m.delivered) = true
    · rw [if_pos hc]
    · rw [if_neg hc]; exact hd
  · intro hr
    by_cases hc : (m.receiverId == r && !m.delivered) = true
    · rw [if_pos hc]; exact hr
    · rw [if_neg hc]; exact hr

theorem msgStep_markRead (st : MemStorage) (sid rid : Nat) :
    msgStep st (markMessagesAsRead st sid rid) := by
  intro i m hm
  rw [lookup_markRead, hm, Option.map_some']
  refine ⟨_, rfl, ?_, ?_⟩
  · intro hd
    by_cases hc : (m.senderId == sid && m.receiverId == rid && !m.read) = true
    · rw [if_pos hc]; exact hd
    · rw [if_neg hc]; exact hd
  · intro hr
    by_cases hc : (m.senderId == sid && m.receiverId == rid && !m.read) = true
    · rw [if_pos hc]
    · rw [if_neg hc]; exact hr

theorem msgStep_createMessage (st : MemStorage) (sid rid : Nat) (c : String)
    (hwf : MsgWF st) : msgStep st (createMessage st sid rid c).1 := by
  intro i m hm
  have hlt : i < st.currentMessageId := hwf _ (lookup_some_key_mem _ _ _ hm)
  refine ⟨m, ?_, fun x => x, fun x => x⟩
  simp only [createMessage]
  rw [lookup_alSet_ne _ _ _ _ (Nat.ne_of_lt hlt)]
  exact hm

theorem msgStep_setUserOnline (st : MemStorage) (u : Nat) (b : Bool) :
    msgStep st (setUserOnline st u b) :=
  msgStep_of_messages_eq (setUserOnline_messages st u b)

theorem wf_of_eq {st stNew : MemStorage} (hm : stNew.messages = st.messages)
    (hc : stNew.currentMessageId = st.currentMessageId) (hwf : MsgWF st) :
    MsgWF stNew := by
  intro p hp
  rw [hm] at hp
  rw [hc]
  exact hwf p hp

theorem wf_createMessage (st : MemStorage) (sid rid : Nat) (c : String)
    (hwf : MsgWF st) : MsgWF (createMessage st sid rid c).1 := by
  intro p hp
  simp only [createMessage] at hp ⊢
  rcases mem_alSet _ _ _ p hp with h | h
  · rw [h]
    exact Nat.lt_succ_self _
  · exact Nat.lt_succ_of_lt (hwf p h)

theorem mem_mapUpdate_key (cond : α → Bool) (f : α → α) (l : List (Nat × α)) :
    ∀ p ∈ l.map (fun q => if cond q.2 then (q.1, f q.2) else q), ∃ q ∈ l, p.1 = q.1 := by
  intro p hp
  rcases List.mem_map.mp hp with ⟨q, hq, rfl⟩
  refine ⟨q, hq, ?_⟩
  by_cases hc : cond q.2 = true
  · rw [if_pos hc]
  · rw [if_neg hc]

theorem wf_markDelivered (st : MemStorage) (r : Nat) (hwf : MsgWF st) :
    MsgWF (markMessagesAsDelivered st r) := by
  intro p hp
  simp only [markMessagesAsDelivered] at hp
  obtain ⟨q, hq, hkey⟩ := mem_mapUpdate_key
    (fun m => m.receiverId == r && !m.delivered)
    (fun m => { m with delivered := true }) st.messages p hp
  show p.1 < st.currentMessageId
  rw [hkey]
  exact hwf q hq

theorem wf_markRead (st : MemStorage) (sid rid : Nat) (hwf : MsgWF st) :
    MsgWF (markMessagesAsRead st sid rid) := by
  intro p hp
  simp only [markMessagesAsRead] at hp
  obtain ⟨q, hq, hkey⟩ := mem_mapUpdate_key
    (fun m => m.senderId == sid && m.receiverId == rid && !m.read)
    (fun m => { m with read := true }) st.messages p hp
  show p.1 < st.currentMessageId
  rw [hkey]
  exact hwf q hq

theorem wf_setUserOnline (st : MemStorage) (u : Nat) (b : Bool) (hwf : MsgWF st) :
    MsgWF (setUserOnline st u b) :=
  wf_of_eq (setUserOnline_messages st u b) (setUserOnline_currentMessageId st u b) hwf

theorem mono_routesHandleMessage (s : ServerState) (uid : Nat) (msg : WSMessage)
    (hwf : MsgWF s.store) :
    msgStep s.store (routesHandleMessage s uid msg).1.store ∧
    MsgWF (routesHandleMessage s uid msg).1.store := by
  simp only [routesHandleMessage]
  by_cases hg : (truthyNat msg.receiverId && truthyStr msg.content) = true
  · rw [if_pos hg]
    exact ⟨msgStep_createMessage s.store uid (msg.receiverId.getD 0) (msg.content.getD "") hwf,
           wf_createMessage s.store uid (msg.receiverId.getD 0) (msg.content.getD "") hwf⟩
  · rw [if_neg hg]
    exact ⟨msgStep_refl _, hwf⟩

theorem mono_routesHandleGroupMessage (s : ServerState) (uid : Nat) (msg : WSMessage) :
    (routesHandleGroupMessage s uid msg).1.store.messages = s.store.messages ∧
    (routesHandleGroupMessage s uid msg).1.store.currentMessageId
      = s.store.currentMessageId := by
  constructor <;>
  · simp only [routesHandleGroupMessage]
    by_cases hg : (truthyNat msg.groupId && truthyStr msg.content) = true
    · rw [if_pos hg]
      by_cases hmem :
          (!((getGroupMembers s.store (msg.groupId.getD 0)).any fun m => m.userId == uid)) = true
      · rw [if_pos hmem]
      · rw [if_neg hmem]
        exact rfl
    · rw [if_neg hg]

theorem mono_routesHandleJoinGroup (s : ServerState) (uid : Nat) (msg : WSMessage) :
    (routesHandleJoinGroup s uid msg).1.store.messages = s.store.messages ∧
    (routesHandleJoinGroup s uid msg).1.store.currentMessageId
      = s.store.currentMessageId := by
  constructor <;>
  · simp only [routesHandleJoinGroup]
    by_cases hta : truthyStr msg.groupAddress = true
    · rw [if_pos hta]
      cases hg : getGroupByAddress s.store (msg.groupAddress.getD "") with
      | none => rfl
      | some g =>
        by_cases hfull : (getGroupMembers s.store g.id).length ≥ 10
        · simp [hfull]
        · by_cases hmem : ((getGroupMembers s.store g.id).any fun m => m.userId == uid) = true
          · simp [hfull, hmem]
          · simp [hfull, hmem, addGroupMember]
    · rw [if_neg hta]

theorem mono_routesHandleDelivered (s : ServerState) (uid : Nat) (msg : WSMessage)
    (hwf : MsgWF s.store) :
    msgStep s.store (routesHandleDelivered s uid msg).1.store ∧
    MsgWF (routesHandleDelivered s uid msg).1.store := by
  simp only [routesHandleDelivered]
  by_cases hg : (truthyNat msg.messageId && truthyNat msg.senderId) = true
  · rw [if_pos hg]
    exact ⟨msgStep_markDelivered s.store uid, wf_markDelivered s.store uid hwf⟩
  · rw [if_neg hg]
    exact ⟨msgStep_refl _, hwf⟩

theorem mono_part0HandleMessage (s : ServerState) (uid : Nat) (msg : WSMessage)
    (hwf : MsgWF s.store) :
    msgStep s.store (part0HandleMessage s uid msg).1.store ∧
    MsgWF (part0HandleMessage s uid msg).1.store := by
  simp only [part0HandleMessage]
  by_cases hg : (!truthyNat msg.receiverId || !truthyStr msg.content) = true
  · rw [if_pos hg]
    exact ⟨msgStep_refl _, hwf⟩
  · rw [if_neg hg]
    by_cases ho : openClient s.clients (msg.receiverId.getD 0) = true
    · rw [if_pos ho]
      refine ⟨msgStep_trans
        (msgStep_createMessage s.store uid (msg.receiverId.getD 0) (msg.content.getD "") hwf)
        (msgStep_markDelivered _ _), ?_⟩
      exact wf_markDelivered _ _
        (wf_createMessage s.store uid (msg.receiverId.getD 0) (msg.content.getD "") hwf)
    · rw [if_neg ho]
      exact ⟨msgStep_createMessage s.store uid (msg.receiverId.getD 0) (msg.content.getD "") hwf,
             wf_createMessage s.store uid (msg.receiverId.getD 0) (msg.content.getD "") hwf⟩

theorem mono_part0HandleDelivered (s : ServerState) (uid : Nat) (msg : WSMessage) :
    (part0HandleDelivered s uid msg).1.store = s.store := by
  simp only [part0HandleDelivered]
  by_cases h1 : (truthyNat msg.messageId && truthyNat msg.senderId) = true
  · rw [if_pos h1]
    by_cases h2 : openClient s.clients (msg.senderId.getD 0) = true
    · rw [if_pos h2]
    · rw [if_neg h2]
  · rw [if_neg h1]

theorem mono_part0HandleRead (s : ServerState) (uid : Nat) (msg : WSMessage)
    (hwf : MsgWF s.store) :
    msgStep s.store (part0HandleRead s uid msg).1.store ∧
    MsgWF (part0HandleRead s uid msg).1.store := by
  simp only [part0HandleRead]
  by_cases hg : truthyNat msg.senderId = true
  · rw [if_pos hg]
    exact ⟨msgStep_markRead s.store (msg.senderId.getD 0) uid,
           wf_markRead s.store (msg.senderId.getD 0) uid hwf⟩
  · rw [if_neg hg]
    exact ⟨msgStep_refl _, hwf⟩

theorem mono_part0HandleGroupMessage (s : ServerState) (uid : Nat) (msg : WSMessage) :
    (part0HandleGroupMessage s uid msg).1.store.messages = s.store.messages ∧
    (part0HandleGroupMessage s uid msg).1.store.currentMessageId
      = s.store.currentMessageId := by
  constructor <;>
  · simp only [part0HandleGroupMessage]
    by_cases hg : (truthyNat msg.groupId && truthyStr msg.content) = true
    · rw [if_pos hg]
      by_cases hmem :
          (!((getGroupMembers s.store (msg.groupId.getD 0)).any fun m => m.userId == uid)) = true
      · rw [if_pos hmem]
      · rw [if_neg hmem]
        exact rfl
    · rw [if_neg hg]

theorem mono_part0Connect (s : ServerState) (uid : Nat) (c : Conn)
    (hwf : MsgWF s.store) :
    msgStep s.store (part0Connect s uid c).1.store ∧
    MsgWF (part0Connect s uid c).1.store := by
  simp only [part0Connect]
  exact ⟨msgStep_trans (msgStep_setUserOnline s.store uid true) (msgStep_markDelivered _ _),
         wf_markDelivered _ _ (wf_setUserOnline s.store uid true hwf)⟩

theorem mono_routesClose (s : ServerState) (uid : Nat) (hwf : MsgWF s.store) :
    msgStep s.store (routesClose s uid).1.store ∧ MsgWF (routesClose s uid).1.store := by
  simp only [routesClose]
  exact ⟨msgStep_setUserOnline s.store uid false, wf_setUserOnline s.store uid false hwf⟩

theorem mono_apiGetMessages (s : ServerState) (a b : Nat) (hwf : MsgWF s.store) :
    msgStep s.store (apiGetMessages s a b).1.store ∧
    MsgWF (apiGetMessages s a b).1.store := by
  simp only [apiGetMessages]
  exact ⟨msgStep_markRead s.store b a, wf_markRead s.store b a hwf⟩

/-- Every event of `applyOp` is flag-monotone on the messages table and
preserves key freshness. -/
theorem applyOp_mono (s : ServerState) (op : Op) (hwf : MsgWF s.store) :
    msgStep s.store (applyOp s op).store ∧ MsgWF (applyOp s op).store := by
  cases op with
  | routesFrame uid msg =>
    simp only [applyOp, routesHandleFrame]
    by_cases h1 : msg.type = "message"
    · rw [if_pos h1]; exact mono_routesHandleMessage s uid msg hwf
    · rw [if_neg h1]
      by_cases h2 : msg.type = "group_message"
      · rw [if_pos h2]
        obtain ⟨hm, hc⟩ := mono_routesHandleGroupMessage s uid msg
        exact ⟨msgStep_of_messages_eq hm, wf_of_eq hm hc hwf⟩
      · rw [if_neg h2]
        by_cases h3 : msg.type = "join_group"
        · rw [if_pos h3]
          obtain ⟨hm, hc⟩ := mono_routesHandleJoinGroup s uid msg
          exact ⟨msgStep_of_messages_eq hm, wf_of_eq hm hc hwf⟩
        · rw [if_neg h3]
          by_cases h4 : msg.type = "delivered"
          · rw [if_pos h4]; exact mono_routesHandleDelivered s uid msg hwf
          · rw [if_neg h4]; exact ⟨msgStep_refl _, hwf⟩
  | part0Frame uid msg =>
    simp only [applyOp, part0HandleFrame]
    by_cases h1 : msg.type = "message"
    · rw [if_pos h1]; exact mono_part0HandleMessage s uid msg hwf
    · rw [if_neg h1]
      by_cases h2 : msg.type = "delivered"
      · rw [if_pos h2]
        rw [mono_part0HandleDelivered s uid msg]
        exact ⟨msgStep_refl _, hwf⟩
      · rw [if_neg h2]
        by_cases h3 : msg.type = "read"
        · rw [if_pos h3]; exact mono_part0HandleRead s uid msg hwf
        · rw [if_neg h3]
          by_cases h4 : msg.type = "group_message"
          · rw [if_pos h4]
            obtain ⟨hm, hc⟩ := mono_part0HandleGroupMessage s uid msg
            exact ⟨msgStep_of_messages_eq hm, wf_of_eq hm hc hwf⟩
          · rw [if_neg h4]
            by_cases h5 : msg.type = "join_group"
            · rw [if_pos h5]
              obtain ⟨hm, hc⟩ := mono_routesHandleJoinGroup s uid msg
              exact ⟨msgStep_of_messages_eq hm, wf_of_eq hm hc hwf⟩
            · rw [if_neg h5]; exact ⟨msgStep_refl _, hwf⟩
  | connect uid c =>
    exact mono_part0Connect s uid c hwf
  | close uid =>
    exact mono_routesClose s uid hwf
  | httpGetMessages a b =>
    exact mono_apiGetMessages s a b hwf

/-- C2 (counterexample to the claim as stated): in `exSAck` message 1 (to
receiver 2) is undelivered; processing receiver 2's `delivered` frame sets the
stored flag to true, yet the operation pushes no `message` frame to anyone —
the only output is the forwarded ack — so delivered is not set only as a
consequence of a live hand-off of a message. -/
theorem c2_counterexample :
    ((exSAck.store.messages.lookup 1).map Message.delivered = some false) ∧
    (((routesHandleFrame exSAck 2 wAck).1.store.messages.lookup 1).map
        Message.delivered = some true) ∧
    ((routesHandleFrame exSAck 2 wAck).2 = [(1, OutFrame.delivered 9)]) :=
  ⟨by decide, by decide, by decide⟩

/-- C2 (amended): along every sequence of router operations (frames on either
router, connects, closes, history fetches), each stored DirectMessage survives
under its id and its `delivered` and `read` flags are monotone — once true
they are never reset, so each flips false→true at most once.  (The "delivered
becomes true only by live hand-off" part of the original claim fails: the
connect handler and the `delivered`-frame handler also set it, see the
counterexample.) -/
theorem c2_flags_monotone (s : ServerState) (ops : List Op) (hwf : MsgWF s.store)
    (i : Nat) (m mEnd : Message)
    (h1 : s.store.messages.lookup i = some m)
    (h2 : (applyOps s ops).store.messages.lookup i = some mEnd) :
    (m.delivered = true → mEnd.delivered = true) ∧
    (m.read = true → mEnd.read = true) := by
  induction ops generalizing s m with
  | nil =>
    simp only [applyOps, List.foldl_nil] at h2
    rw [h1] at h2
    obtain rfl := Option.some.inj h2
    exact ⟨fun x => x, fun x => x⟩
  | cons op rest ih =>
    obtain ⟨hstep, hwf2⟩ := applyOp_mono s op hwf
    obtain ⟨m1, hm1, hd1, hr1⟩ := hstep i m h1
    have h2b : (applyOps (applyOp s op) rest).store.messages.lookup i = some mEnd := by
      simpa [applyOps, List.foldl_cons] using h2
    obtain ⟨hd2, hr2⟩ := ih (applyOp s op) hwf2 m1 hm1 h2b
    exact ⟨fun h => hd2 (hd1 h), fun h => hr2 (hr1 h)⟩

/-- Witness for C2 (amended): message 1 of `exSC2` starts read-but-undelivered;
after receiver 2's `delivered` frame it is delivered and still read. -/
theorem c2_witness :
    (MsgWF exSC2.store ∧
      exSC2.store.messages.lookup 1 = some ⟨1, 1, 2, "hi", 50, false, true⟩ ∧
      (applyOps exSC2 [Op.routesFrame 2 wAck]).store.messages.lookup 1
        = some ⟨1, 1, 2, "hi", 50, true, true⟩) ∧
    ((Message.delivered ⟨1, 1, 2, "hi", 50, false, true⟩ = true →
        Message.delivered ⟨1, 1, 2, "hi", 50, true, true⟩ = true) ∧
     (Message.read ⟨1, 1, 2, "hi", 50, false, true⟩ = true →
        Message.read ⟨1, 1, 2, "hi", 50, true, true⟩ = true)) :=
  ⟨⟨by unfold MsgWF; decide, by decide, by decide⟩,
   c2_flags_monotone exSC2 [Op.routesFrame 2 wAck] (by unfold MsgWF; decide) 1
     ⟨1, 1, 2, "hi", 50, false, true⟩ ⟨1, 1, 2, "hi", 50, true, true⟩
     (by decide) (by decide)⟩

/-- C3 (counterexample to the claim as stated): message 1 of `exSOffline` was
created while receiver 2 had no live connection; merely connecting user 2
(the `part_000` connection handler calls `markMessagesAsDelivered`) flips its
delivered flag before any history fetch happens. -/
theorem c3_counterexample :
    (exSOffline.clients.lookup 2 = none) ∧
    ((exSOffline.store.messages.lookup 1).map Message.delivered = some false) ∧
    (((part0Connect exSOffline 2 ⟨5, wsOPEN⟩).1.store.messages.lookup 1).map
        Message.delivered = some true) :=
  ⟨by decide, by decide, by decide⟩

/-- C3 (amended): the history-fetch path `GET /api/messages/:userId` never
sets `delivered` on any message: every stored message survives with id,
sender, receiver, content, sent time and delivered flag unchanged, and only
`read` may flip (monotonically).  The "delivered remains false until the
receiver fetches history" part of the original claim fails — connecting, or a
`delivered` frame, sets it earlier (see the counterexample). -/
theorem c3_history_fetch_never_sets_delivered (s : ServerState)
    (caller other i : Nat) (m : Message)
    (h : s.store.messages.lookup i = some m) :
    ∃ mNew, (apiGetMessages s caller other).1.store.messages.lookup i = some mNew ∧
      mNew.delivered = m.delivered ∧ mNew.id = m.id ∧ mNew.senderId = m.senderId ∧
      mNew.receiverId = m.receiverId ∧ mNew.content = m.content ∧
      mNew.sent = m.sent ∧ (m.read = true → mNew.read = true) := by
  have hst : (apiGetMessages s caller other).1.store
      = markMessagesAsRead s.store other caller := rfl
  rw [hst, lookup_markRead, h, Option.map_some']
  refine ⟨_, rfl, ?_⟩
  by_cases hc : (m.senderId == other && m.receiverId == caller && !m.read) = true
  · rw [if_pos hc]
    exact ⟨rfl, rfl, rfl, rfl, rfl, rfl, fun _ => rfl⟩
  · rw [if_neg hc]
    exact ⟨rfl, rfl, rfl, rfl, rfl, rfl, fun h => h⟩

/-- Witness for C3 (amended): fetching the history between users 2 and 1 in
`exSAck` marks message 1 read but leaves its delivered flag false. -/
theorem c3_witness :
    exSAck.store.messages.lookup 1 = some ⟨1, 1, 2, "hi", 50, false, false⟩ ∧
    ((apiGetMessages exSAck 2 1).1.store.messages.lookup 1).map Message.delivered
        = some false := by
  obtain ⟨mNew, hm, hd, _⟩ := c3_history_fetch_never_sets_delivered exSAck 2 1 1
    ⟨1, 1, 2, "hi", 50, false, false⟩ (by decide)
  refine ⟨by decide, ?_⟩
  rw [hm, Option.map_some', hd]

end SwiftChat
